import Mathlib

/-!
Verification of the fenris-rs client/server file system against its
natural-language specification.

The Rust sources are shallowly embedded:

* `network.rs` — byte streams are `List Nat` (each element a byte value);
  `send_prefixed` produces the bytes written to the socket and
  `receive_prefixed` consumes a stream, returning the payload and the
  unread remainder (`none` models a fatal short read of `read_exact`).
* `crypto.rs` — the AES-256-GCM cipher of the external `aes_gcm` crate is
  modelled from the spec as a CTR-style keystream XOR plus a deterministic
  16-byte tag over the ciphertext, parameterised by the (out-of-scope)
  block-cipher internals; the size checks and error mapping of
  `AesGcmEncryptor::{encrypt,decrypt}` are translated verbatim.
* `file_ops.rs` — paths are component lists; the OS (canonicalisation,
  create/remove calls of `tokio::fs`) is an abstract oracle `OsFs` over an
  abstract filesystem state, since `resolve_path`'s guard is independent
  of what the OS resolves a path to.
* `request_handler.rs` — `PathBuf` values handled by the request handler
  are raw strings (as `to_string_lossy` exposes them on the wire);
  `Path::join` and `Path::parent` are implemented with their raw-string
  semantics.  The `FileOperations` trait object is an abstract oracle.
* protobuf-generated types (`Request`, `Response`, tag numbering) are not
  under `src/`; they are modelled from the spec where so noted.
-/

namespace Fenris

/-! ## Byte-level utilities -/

/-- Little-endian byte encoding of `n` into exactly `k` bytes
(the layout used by 32-byte curve scalars and points). -/
def natToBytesLE : Nat → Nat → List Nat
  | 0, _ => []
  | k + 1, n => n % 256 :: natToBytesLE k (n / 256)

/-- Little-endian byte decoding. -/
def bytesToNatLE : List Nat → Nat
  | [] => 0
  | b :: bs => b + 256 * bytesToNatLE bs

theorem natToBytesLE_length (k n : Nat) : (natToBytesLE k n).length = k := by
  induction k generalizing n with
  | zero => rfl
  | succ k ih => simp [natToBytesLE, ih]

theorem bytesToNatLE_natToBytesLE (k n : Nat) (h : n < 256 ^ k) :
    bytesToNatLE (natToBytesLE k n) = n := by
  induction k generalizing n with
  | zero =>
    simp only [natToBytesLE, bytesToNatLE]
    omega
  | succ k ih =>
    simp only [natToBytesLE, bytesToNatLE]
    rw [ih (n / 256)]
    · omega
    · have hpow : 256 ^ (k + 1) = 256 ^ k * 256 := by ring
      rw [hpow] at h
      omega

/-! ## Framing (`network.rs`) -/

/-- Big-endian byte split performed by `u32::to_be_bytes` on
`data.len() as u32` (the `as u32` cast keeps only the low 32 bits,
which these digit extractions reproduce). -/
def u32ToBeBytes (n : Nat) : List Nat :=
  [n / 16777216 % 256, n / 65536 % 256, n / 256 % 256, n % 256]

/-- `u32::from_be_bytes` on four received bytes. -/
def beBytesToU32 (b0 b1 b2 b3 : Nat) : Nat :=
  b0 * 16777216 + b1 * 65536 + b2 * 256 + b3

/-- `send_prefixed` (network.rs:6-18): writes the 4-byte big-endian length
prefix followed by the payload bytes. -/
def send_prefixed (data : List Nat) : List Nat :=
  u32ToBeBytes data.length ++ data

/-- `receive_prefixed` (network.rs:20-32): reads exactly 4 prefix bytes,
then exactly that many payload bytes; a short read is a fatal error
(`none`).  Returns the payload together with the unread remainder of the
stream. -/
def receive_prefixed (stream : List Nat) : Option (List Nat × List Nat) :=
  match stream with
  | b0 :: b1 :: b2 :: b3 :: rest =>
    let len := beBytesToU32 b0 b1 b2 b3
    if len ≤ rest.length then some (rest.take len, rest.drop len) else none
  | _ => none

theorem beBytesToU32_u32ToBeBytes (n : Nat) (h : n < 4294967296) :
    beBytesToU32 (n / 16777216 % 256) (n / 65536 % 256) (n / 256 % 256) (n % 256) = n := by
  unfold beBytesToU32
  omega

/-- Claim C9: for every byte string `s` of length up to 1 MiB (the empty
string included), `receive_prefixed` applied to the bytes produced by
`send_prefixed s` returns exactly `s` — a 4-byte big-endian length prefix
followed by exactly that many payload bytes — leaving any following bytes
unread. -/
theorem framing_roundtrip (s rest : List Nat) (h : s.length ≤ 1048576) :
    receive_prefixed (send_prefixed s ++ rest) = some (s, rest) := by
  have hlen : beBytesToU32 (s.length / 16777216 % 256) (s.length / 65536 % 256)
      (s.length / 256 % 256) (s.length % 256) = s.length :=
    beBytesToU32_u32ToBeBytes s.length (by omega)
  simp only [send_prefixed, u32ToBeBytes, List.cons_append, List.nil_append,
    receive_prefixed, hlen]
  rw [if_pos (by simp)]
  rw [List.take_left, List.drop_left]

/-- Witness for C9 at a concrete payload. -/
theorem framing_roundtrip_witness :
    receive_prefixed (send_prefixed [104, 105] ++ [7]) = some ([104, 105], [7]) :=
  framing_roundtrip [104, 105] [7] (by decide)

/-! ## Error type (`error.rs`) -/

/-- `FenrisError` (error.rs).  Numeric payloads (`expected`/`got` sizes) are
`Nat`, messages are the strings the Rust code builds. -/
inductive FenrisError where
  | EncryptionError (msg : String)
  | DecryptionError (msg : String)
  | InvalidKeySize (expected got : Nat)
  | InvalidIvSize (expected got : Nat)
  | CompressionError (msg : String)
  | DecompressionError (msg : String)
  | NetworkError (msg : String)
  | ConnectionClosed
  | InvalidProtocolMessage
  | InvalidRequest (msg : String)
  | MissingField (msg : String)
  | FileOperationError (msg : String)
  | SerializationError (msg : String)
  deriving Repr, DecidableEq

/-- The `Display` implementation derived by `thiserror` from the
`#[error("...")]` format strings on `FenrisError`. -/
def FenrisError.toDisplay : FenrisError → String
  | .EncryptionError m => "Encryption error: " ++ m
  | .DecryptionError m => "Decryption error: " ++ m
  | .InvalidKeySize e g =>
      "Invalid key size: expected " ++ toString e ++ ", got " ++ toString g
  | .InvalidIvSize e g =>
      "Invalid IV size: expected " ++ toString e ++ ", got " ++ toString g
  | .CompressionError m => "Compression error: " ++ m
  | .DecompressionError m => "Decompression error: " ++ m
  | .NetworkError m => "Network error: " ++ m
  | .ConnectionClosed => "Connection closed"
  | .InvalidProtocolMessage => "Invalid protocol message"
  | .InvalidRequest m => "Invalid request: " ++ m
  | .MissingField m => "Missing required field: " ++ m
  | .FileOperationError m => "File operation failed: " ++ m
  | .SerializationError m => "Serialization error: " ++ m

theorem string_append_ne_empty (s t : String) (h : s ≠ "") : s ++ t ≠ "" := by
  intro hc
  apply h
  have hd : (s ++ t).data = s.data ++ t.data := rfl
  have : s.data ++ t.data = [] := by rw [← hd, hc]
  have hs : s.data = [] := by
    cases hsd : s.data with
    | nil => rfl
    | cons a l => rw [hsd] at this; simp at this
  cases s
  simp_all

/-- Every `FenrisError` renders to a non-empty message: every `thiserror`
format string starts with a non-empty literal. -/
theorem FenrisError.toDisplay_ne_empty (e : FenrisError) : e.toDisplay ≠ "" := by
  cases e <;> simp only [FenrisError.toDisplay] <;>
    first
      | decide
      | exact string_append_ne_empty _ _ (by decide)
      | exact string_append_ne_empty _ _ (string_append_ne_empty _ _
          (string_append_ne_empty _ _ (by decide)))

/-! ## Crypto (`crypto.rs`) -/

/-- Size constants of crypto.rs:3-9. -/
def KEY_SIZE : Nat := 32

def IV_SIZE : Nat := 12

def TAG_SIZE : Nat := 16

def ECDH_KEY_SIZE : Nat := 32

/-- Modelled from the spec: the internals of the external `aes_gcm` crate's
AES-256-GCM are out of scope; per §4.2 the cipher produces
`ciphertext ‖ tag` with a 16-byte authentication tag appended, and
decryption verifies the tag before returning the plaintext.  A GCM
instance is abstracted as a CTR keystream (a byte per position, derived
from key and nonce by the block cipher) and a deterministic 16-byte tag
function of key, nonce and ciphertext. -/
structure GcmCipher where
  keystream : List Nat → List Nat → Nat → Nat
  tag : List Nat → List Nat → List Nat → List Nat
  tag_length : ∀ key nonce ct, (tag key nonce ct).length = TAG_SIZE

/-- CTR-mode XOR of a byte list against the keystream starting at
position `i`. -/
def ctrXor (ks : Nat → Nat) : Nat → List Nat → List Nat
  | _, [] => []
  | i, b :: bs => (b ^^^ ks i) :: ctrXor ks (i + 1) bs

theorem ctrXor_length (ks : Nat → Nat) (i : Nat) (l : List Nat) :
    (ctrXor ks i l).length = l.length := by
  induction l generalizing i with
  | nil => rfl
  | cons b bs ih => simp [ctrXor, ih]

theorem ctrXor_ctrXor (ks : Nat → Nat) (i : Nat) (l : List Nat) :
    ctrXor ks i (ctrXor ks i l) = l := by
  induction l generalizing i with
  | nil => rfl
  | cons b bs ih =>
    simp only [ctrXor, ih, List.cons.injEq, and_true]
    rw [Nat.xor_assoc, Nat.xor_self, Nat.xor_zero]

/-- AEAD sealing of the abstract GCM cipher: ciphertext with the 16-byte
tag appended (spec §4.2). -/
def aeadEncrypt (C : GcmCipher) (key nonce plaintext : List Nat) : List Nat :=
  let body := ctrXor (C.keystream key nonce) 0 plaintext
  body ++ C.tag key nonce body

/-- AEAD opening of the abstract GCM cipher: split off the trailing
16-byte tag, recompute it over the ciphertext body, fail verification on
mismatch. -/
def aeadDecrypt (C : GcmCipher) (key nonce ct : List Nat) : Option (List Nat) :=
  let body := ct.take (ct.length - TAG_SIZE)
  let t := ct.drop (ct.length - TAG_SIZE)
  if C.tag key nonce body = t then some (ctrXor (C.keystream key nonce) 0 body) else none

/-- `AesGcmEncryptor::encrypt` (crypto.rs:53-76): key- and IV-size checks,
then the AEAD seal.  (`Aes256Gcm::new_from_slice` can only fail on a
wrong key length, which the preceding check already rules out.) -/
def AesGcmEncryptor.encrypt (C : GcmCipher) (plaintext key iv : List Nat) :
    Except FenrisError (List Nat) :=
  if key.length ≠ KEY_SIZE then
    .error (.InvalidKeySize KEY_SIZE key.length)
  else if iv.length ≠ IV_SIZE then
    .error (.InvalidIvSize IV_SIZE iv.length)
  else
    .ok (aeadEncrypt C key iv plaintext)

/-- `AesGcmEncryptor::decrypt` (crypto.rs:78-107): key- and IV-size
checks, the short-ciphertext check, then the AEAD open.  The Rust code
maps an AEAD verification failure through
`FenrisError::DecompressionError` (crypto.rs:106); the carried message is
the library error's display text. -/
def AesGcmEncryptor.decrypt (C : GcmCipher) (ciphertext key iv : List Nat) :
    Except FenrisError (List Nat) :=
  if key.length ≠ KEY_SIZE then
    .error (.InvalidKeySize KEY_SIZE key.length)
  else if iv.length ≠ IV_SIZE then
    .error (.InvalidIvSize IV_SIZE iv.length)
  else if ciphertext.length < TAG_SIZE then
    .error (.DecryptionError "Ciphertext must contain at least the auth tag")
  else
    match aeadDecrypt C key iv ciphertext with
    | some pt => .ok pt
    | none => .error (.DecompressionError "aead::Error")

/-- Claim C8: for every plaintext, 32-byte key and 12-byte nonce — and
every block-cipher instantiation of the AEAD — `encrypt` produces the
ciphertext body with a 16-byte authentication tag appended, and `decrypt`
inverts it back to the plaintext. -/
theorem aead_roundtrip (C : GcmCipher) (p key iv : List Nat)
    (hk : key.length = KEY_SIZE) (hn : iv.length = IV_SIZE) :
    ∃ body tag, AesGcmEncryptor.encrypt C p key iv = .ok (body ++ tag) ∧
      tag.length = TAG_SIZE ∧
      AesGcmEncryptor.decrypt C (body ++ tag) key iv = .ok p := by
  refine ⟨ctrXor (C.keystream key iv) 0 p, C.tag key iv (ctrXor (C.keystream key iv) 0 p),
    ?_, C.tag_length key iv _, ?_⟩
  · simp [AesGcmEncryptor.encrypt, hk, hn, aeadEncrypt]
  · have htl := C.tag_length key iv (ctrXor (C.keystream key iv) 0 p)
    have hlen : (ctrXor (C.keystream key iv) 0 p ++
        C.tag key iv (ctrXor (C.keystream key iv) 0 p)).length =
        p.length + TAG_SIZE := by
      simp [htl, ctrXor_length]
    have hsplit : (ctrXor (C.keystream key iv) 0 p ++
        C.tag key iv (ctrXor (C.keystream key iv) 0 p)).length - TAG_SIZE =
        (ctrXor (C.keystream key iv) 0 p).length := by
      simp [hlen, ctrXor_length]
    simp only [AesGcmEncryptor.decrypt, hk, hn]
    rw [if_neg (by simp), if_neg (by simp), if_neg (by omega)]
    simp only [aeadDecrypt, hsplit, List.take_left, List.drop_left, if_pos rfl]
    simp [ctrXor_ctrXor]

/-- A concrete trivial GCM instance, used only by witnesses: zero
keystream and an all-zero tag. -/
def zeroGcm : GcmCipher where
  keystream := fun _ _ _ => 0
  tag := fun _ _ _ => List.replicate TAG_SIZE 0
  tag_length := fun _ _ _ => List.length_replicate TAG_SIZE 0

/-- Witness for C8 at a concrete plaintext, key and nonce. -/
theorem aead_roundtrip_witness :
    ∃ body tag,
      AesGcmEncryptor.encrypt zeroGcm [1, 2, 3] (List.replicate 32 0) (List.replicate 12 0) =
        .ok (body ++ tag) ∧
      tag.length = TAG_SIZE ∧
      AesGcmEncryptor.decrypt zeroGcm (body ++ tag) (List.replicate 32 0)
        (List.replicate 12 0) = .ok [1, 2, 3] :=
  aead_roundtrip zeroGcm [1, 2, 3] (List.replicate 32 0) (List.replicate 12 0)
    (by decide) (by decide)

/-- Claim C10: with a 32-byte key and 12-byte nonce, a ciphertext shorter
than the 16-byte tag is rejected as `DecryptionError("Ciphertext must
contain at least the auth tag")`; the result holds for every block-cipher
instantiation `C`, so no such input reaches the cipher. -/
theorem short_ciphertext_rejected (C : GcmCipher) (ct key iv : List Nat)
    (hk : key.length = KEY_SIZE) (hn : iv.length = IV_SIZE) (hc : ct.length < TAG_SIZE) :
    AesGcmEncryptor.decrypt C ct key iv =
      .error (.DecryptionError "Ciphertext must contain at least the auth tag") := by
  simp only [AesGcmEncryptor.decrypt, hk, hn]
  rw [if_neg (by simp), if_neg (by simp), if_pos hc]

/-- Witness for C10: the 15-byte all-zero ciphertext is rejected. -/
theorem short_ciphertext_rejected_witness :
    AesGcmEncryptor.decrypt zeroGcm (List.replicate 15 0) (List.replicate 32 0)
      (List.replicate 12 0) =
      .error (.DecryptionError "Ciphertext must contain at least the auth tag") :=
  short_ciphertext_rejected zeroGcm (List.replicate 15 0) (List.replicate 32 0)
    (List.replicate 12 0) (by decide) (by decide) (by decide)

/-- Claim C2 (code bug, crypto.rs:106): at a 32-byte key, 12-byte nonce
and a 16-byte ciphertext whose tag fails AEAD verification, `decrypt`
fails — but with `DecompressionError`, not the `DecryptionError` the spec
requires: the code maps the AEAD open failure through
`FenrisError::DecompressionError`. -/
theorem decrypt_error_variant_bug :
    AesGcmEncryptor.decrypt zeroGcm (List.replicate 15 0 ++ [1]) (List.replicate 32 0)
        (List.replicate 12 0) =
      .error (.DecompressionError "aead::Error") := rfl

/-! ## ECDH and the secure-channel handshake
(`crypto.rs` X25519KeyExchanger, `secure_channel.rs`) -/

/-- Order of the prime-order subgroup of Curve25519 generated by the
X25519 base point. -/
def curveOrder : Nat := 2 ^ 252 + 27742317777372353535851937790883648493

instance : NeZero curveOrder := ⟨by unfold curveOrder; norm_num⟩

/-- Modelled from the spec: the external `x25519_dalek` scalar
multiplication is out of scope; per §4.2 the exchanger performs
"Curve25519-style ECDH" on 32-byte keys.  The cyclic group generated by
the base point is abstracted as the additive group `ZMod curveOrder`
(written multiplicatively by field multiplication on the scalar image),
where scalar multiplication by `k` is multiplication by `k mod ℓ`. -/
def scalarMult (k : Nat) (P : ZMod curveOrder) : ZMod curveOrder :=
  (k : ZMod curveOrder) * P

/-- The abstract image of the X25519 base point. -/
def basePoint : ZMod curveOrder := 1

/-- A group element serialised to its 32-byte wire form. -/
def pointBytes (P : ZMod curveOrder) : List Nat :=
  natToBytesLE 32 P.val

/-- A 32-byte wire form decoded back to a group element. -/
def bytesPoint (b : List Nat) : ZMod curveOrder :=
  (bytesToNatLE b : ZMod curveOrder)

theorem pointBytes_length (P : ZMod curveOrder) : (pointBytes P).length = 32 :=
  natToBytesLE_length 32 P.val

theorem bytesPoint_pointBytes (P : ZMod curveOrder) : bytesPoint (pointBytes P) = P := by
  unfold bytesPoint pointBytes
  rw [bytesToNatLE_natToBytesLE 32 P.val
    (lt_of_lt_of_le P.val_lt (by unfold curveOrder; norm_num))]
  rw [ZMod.natCast_val, ZMod.cast_id]

/-- `X25519KeyExchanger::generate_keypair` (crypto.rs:128-133): a random
secret scalar (here the externally supplied randomness `sk`) and the
corresponding public point, both as 32-byte strings. -/
def generate_keypair (sk : Nat) : List Nat × List Nat :=
  (natToBytesLE 32 sk, pointBytes (scalarMult sk basePoint))

/-- `X25519KeyExchanger::compute_shared_secret` (crypto.rs:135-159):
both keys must be exactly 32 bytes; the shared secret is the peer public
point multiplied by the local secret scalar, serialised to 32 bytes. -/
def compute_shared_secret (private_key peer_public_key : List Nat) :
    Except FenrisError (List Nat) :=
  if private_key.length ≠ ECDH_KEY_SIZE then
    .error (.InvalidKeySize ECDH_KEY_SIZE private_key.length)
  else if peer_public_key.length ≠ ECDH_KEY_SIZE then
    .error (.InvalidKeySize ECDH_KEY_SIZE peer_public_key.length)
  else
    .ok (pointBytes (scalarMult (bytesToNatLE private_key) (bytesPoint peer_public_key)))

/-- `CryptoManager::derive_key` with `HkdfSha256Deriver` (crypto.rs:
177-198, 244-248): the HKDF-SHA256 expand of the external `hkdf` crate is
abstracted as `kdf` (shared secret, context, output size); the output
size is fixed to the encryptor's `KEY_SIZE` and both handshake sides use
the same deriver with the same default salt. -/
def derive_key (kdf : List Nat → List Nat → Nat → List Nat) (shared_secret context : List Nat) :
    List Nat :=
  kdf shared_secret context KEY_SIZE

/-- One handshake network event, for stating the wire ordering. -/
inductive HsEvent where
  | sentKey (pk : List Nat)
  | receivedKey (pk : List Nat)
  deriving Repr, DecidableEq

/-- `SecureChannel::client_handshake_with_context`
(secure_channel.rs:47-63): generate a keypair, send the public key as a
framed payload, receive the server's public key, compute the shared
secret and derive the session key.  Returns the bytes written to the
stream, the event trace, and the derived key (`none` on any failure). -/
def client_handshake_with_context (kdf : List Nat → List Nat → Nat → List Nat)
    (skA : Nat) (context inStream : List Nat) :
    List Nat × List HsEvent × Option (List Nat) :=
  let (private_key, public_key) := generate_keypair skA
  let out := send_prefixed public_key
  match receive_prefixed inStream with
  | none => (out, [.sentKey public_key], none)
  | some (server_public_key, _) =>
    match compute_shared_secret private_key server_public_key with
    | .error _ => (out, [.sentKey public_key, .receivedKey server_public_key], none)
    | .ok shared_secret =>
      (out, [.sentKey public_key, .receivedKey server_public_key],
        some (derive_key kdf shared_secret context))

/-- `SecureChannel::server_handshake_with_context`
(secure_channel.rs:73-90): receive the client's public key **first**,
then generate a keypair and send the public key, compute the shared
secret and derive the session key. -/
def server_handshake_with_context (kdf : List Nat → List Nat → Nat → List Nat)
    (skB : Nat) (context inStream : List Nat) :
    List Nat × List HsEvent × Option (List Nat) :=
  match receive_prefixed inStream with
  | none => ([], [], none)
  | some (client_public_key, _) =>
    let (private_key, public_key) := generate_keypair skB
    let out := send_prefixed public_key
    match compute_shared_secret private_key client_public_key with
    | .error _ => (out, [.receivedKey client_public_key, .sentKey public_key], none)
    | .ok shared_secret =>
      (out, [.receivedKey client_public_key, .sentKey public_key],
        some (derive_key kdf shared_secret context))

/-- A client handshake run against a server handshake over a connected
socket pair: the client's output bytes feed the server's input and vice
versa (well-defined because the client writes before reading). -/
def run_handshake (kdf : List Nat → List Nat → Nat → List Nat) (skA skB : Nat)
    (context : List Nat) :
    (List Nat × List HsEvent × Option (List Nat)) ×
      (List Nat × List HsEvent × Option (List Nat)) :=
  let clientToServer := (client_handshake_with_context kdf skA context []).1
  let server := server_handshake_with_context kdf skB context clientToServer
  let client := client_handshake_with_context kdf skA context server.1
  (client, server)

/-- When the incoming stream delivers one framed public key, the server
handshake receives it first, then sends its own public key, computes the
shared secret and derives the session key.  Stated over abstract received
bytes so that the handshake composition below is pure rewriting. -/
theorem server_handshake_eq (kdf : List Nat → List Nat → Nat → List Nat)
    (skB : Nat) (context inStream pk rest ss : List Nat)
    (hrecv : receive_prefixed inStream = some (pk, rest))
    (hcss : compute_shared_secret (natToBytesLE 32 skB) pk = .ok ss) :
    server_handshake_with_context kdf skB context inStream =
      (send_prefixed (pointBytes (scalarMult skB basePoint)),
        [.receivedKey pk, .sentKey (pointBytes (scalarMult skB basePoint))],
        some (derive_key kdf ss context)) := by
  unfold server_handshake_with_context
  rw [hrecv]
  dsimp only [generate_keypair]
  rw [hcss]

/-- When the incoming stream delivers one framed public key, the client
handshake sends its public key, receives the peer key, computes the
shared secret and derives the session key. -/
theorem client_handshake_eq (kdf : List Nat → List Nat → Nat → List Nat)
    (skA : Nat) (context inStream pk rest ss : List Nat)
    (hrecv : receive_prefixed inStream = some (pk, rest))
    (hcss : compute_shared_secret (natToBytesLE 32 skA) pk = .ok ss) :
    client_handshake_with_context kdf skA context inStream =
      (send_prefixed (pointBytes (scalarMult skA basePoint)),
        [.sentKey (pointBytes (scalarMult skA basePoint)), .receivedKey pk],
        some (derive_key kdf ss context)) := by
  unfold client_handshake_with_context
  dsimp only [generate_keypair]
  rw [hrecv]
  dsimp only
  rw [hcss]

/-- The client handshake writes its framed public key to the stream
before (and independently of) anything it receives. -/
theorem client_handshake_sends_first (kdf : List Nat → List Nat → Nat → List Nat)
    (skA : Nat) (context input : List Nat) :
    (client_handshake_with_context kdf skA context input).1 =
      send_prefixed (pointBytes (scalarMult skA basePoint)) := by
  unfold client_handshake_with_context
  dsimp only [generate_keypair]
  cases receive_prefixed input with
  | none => rfl
  | some p =>
    cases hc : compute_shared_secret (natToBytesLE 32 skA) p.1 <;> simp [hc]

/-- Claim C3: over a connected socket pair with the same context label,
the client sends its public key first (its output is independent of
anything received), the server receives the client's public key before
sending its own, both sides derive the identical session key of
`KEY_SIZE = 32` bytes via the same HKDF derivation, and
`compute_shared_secret` is symmetric on generated keypairs.  `kdf` is the
external HKDF-SHA256 expand; the hypothesis `hkdf` is its output-length
contract. -/
theorem handshake_key_agreement (kdf : List Nat → List Nat → Nat → List Nat)
    (skA skB : Nat) (context : List Nat)
    (ha : skA < 2 ^ 256) (hb : skB < 2 ^ 256)
    (hkdf : ∀ s c n, (kdf s c n).length = n) :
    (∀ input, (client_handshake_with_context kdf skA context input).1 =
        send_prefixed (generate_keypair skA).2) ∧
    (run_handshake kdf skA skB context).2.2.1 =
        [.receivedKey (generate_keypair skA).2, .sentKey (generate_keypair skB).2] ∧
    (run_handshake kdf skA skB context).1.2.1 =
        [.sentKey (generate_keypair skA).2, .receivedKey (generate_keypair skB).2] ∧
    compute_shared_secret (generate_keypair skA).1 (generate_keypair skB).2 =
        compute_shared_secret (generate_keypair skB).1 (generate_keypair skA).2 ∧
    ∃ ss, compute_shared_secret (generate_keypair skA).1 (generate_keypair skB).2 = .ok ss ∧
      (run_handshake kdf skA skB context).1.2.2 = some (derive_key kdf ss context) ∧
      (run_handshake kdf skA skB context).2.2.2 = some (derive_key kdf ss context) ∧
      (derive_key kdf ss context).length = KEY_SIZE := by
  have h256 : (256 : Nat) ^ 32 = 2 ^ 256 := by norm_num
  have hdecA : bytesToNatLE (natToBytesLE 32 skA) = skA :=
    bytesToNatLE_natToBytesLE 32 skA (by rw [h256]; exact ha)
  have hdecB : bytesToNatLE (natToBytesLE 32 skB) = skB :=
    bytesToNatLE_natToBytesLE 32 skB (by rw [h256]; exact hb)
  have hrt : ∀ P : ZMod curveOrder,
      receive_prefixed (send_prefixed (pointBytes P)) = some (pointBytes P, []) := by
    intro P
    have := framing_roundtrip (pointBytes P) [] (by rw [pointBytes_length]; omega)
    simpa using this
  have hcssAB : compute_shared_secret (natToBytesLE 32 skA)
      (pointBytes (scalarMult skB basePoint)) =
      .ok (pointBytes (scalarMult skA (scalarMult skB basePoint))) := by
    simp [compute_shared_secret, ECDH_KEY_SIZE, natToBytesLE_length, pointBytes_length,
      bytesPoint_pointBytes, hdecA]
  have hcssBA : compute_shared_secret (natToBytesLE 32 skB)
      (pointBytes (scalarMult skA basePoint)) =
      .ok (pointBytes (scalarMult skB (scalarMult skA basePoint))) := by
    simp [compute_shared_secret, ECDH_KEY_SIZE, natToBytesLE_length, pointBytes_length,
      bytesPoint_pointBytes, hdecB]
  have hsym : scalarMult skA (scalarMult skB basePoint) =
      scalarMult skB (scalarMult skA basePoint) := by
    unfold scalarMult
    ring
  have hgenA : generate_keypair skA =
      (natToBytesLE 32 skA, pointBytes (scalarMult skA basePoint)) := rfl
  have hgenB : generate_keypair skB =
      (natToBytesLE 32 skB, pointBytes (scalarMult skB basePoint)) := rfl
  have hserver := server_handshake_eq kdf skB context
    (send_prefixed (pointBytes (scalarMult skA basePoint)))
    (pointBytes (scalarMult skA basePoint)) [] _
    (hrt (scalarMult skA basePoint)) hcssBA
  have hclient := client_handshake_eq kdf skA context
    (send_prefixed (pointBytes (scalarMult skB basePoint)))
    (pointBytes (scalarMult skB basePoint)) [] _
    (hrt (scalarMult skB basePoint)) hcssAB
  have hrun : run_handshake kdf skA skB context =
      (client_handshake_with_context kdf skA context
          (send_prefixed (pointBytes (scalarMult skB basePoint))),
        server_handshake_with_context kdf skB context
          (send_prefixed (pointBytes (scalarMult skA basePoint)))) := by
    simp only [run_handshake]
    rw [client_handshake_sends_first kdf skA context []]
    rw [hserver]
  refine ⟨?_, ?_, ?_, ?_, ?_⟩
  · intro input
    rw [client_handshake_sends_first kdf skA context input, hgenA]
  · rw [hrun, hgenA, hgenB, hserver]
  · rw [hrun, hgenA, hgenB, hclient]
  · rw [hgenA, hgenB]
    simp only [hcssAB, hcssBA, hsym]
  · refine ⟨pointBytes (scalarMult skA (scalarMult skB basePoint)), ?_, ?_, ?_, ?_⟩
    · rw [hgenA, hgenB]
      exact hcssAB
    · rw [hrun, hclient]
    · rw [hrun, hserver, hsym]
    · exact hkdf _ _ _

/-- Witness for C3 at concrete scalars, context and a concrete KDF. -/
theorem handshake_key_agreement_witness :
    (run_handshake (fun _ _ n => List.replicate n 0) 1 2 [99]).1.2.2 =
      some (derive_key (fun _ _ n => List.replicate n 0)
        (pointBytes (scalarMult 1 (scalarMult 2 basePoint))) [99]) := by
  have h := handshake_key_agreement (fun _ _ n => List.replicate n 0) 1 2 [99]
    (by norm_num) (by norm_num) (fun _ _ n => List.length_replicate n 0)
  obtain ⟨-, -, -, -, ss, hss, hclient, -, -⟩ := h
  have hcss : compute_shared_secret (generate_keypair 1).1 (generate_keypair 2).2 =
      .ok (pointBytes (scalarMult 1 (scalarMult 2 basePoint))) := by
    have hdec1 : bytesToNatLE (natToBytesLE 32 1) = 1 :=
      bytesToNatLE_natToBytesLE 32 1 (by norm_num)
    simp [generate_keypair, compute_shared_secret, ECDH_KEY_SIZE, natToBytesLE_length,
      pointBytes_length, bytesPoint_pointBytes, hdec1]
  have hok : (Except.ok ss : Except FenrisError (List Nat)) =
      .ok (pointBytes (scalarMult 1 (scalarMult 2 basePoint))) := by
    rw [← hss]
    exact hcss
  rw [hclient, Except.ok.inj hok]

/-! ## Sandboxed file operations (`file_ops.rs`)

Paths are lists of components (the granularity at which `Path::strip_prefix`,
`PathBuf::join`, `Path::parent`, `Path::file_name` and `Path::starts_with`
operate); `RPath.absolute` records a leading root component.  The operating
system — `canonicalize` (which resolves `..` and symlinks against the real
filesystem) and the `tokio::fs` calls — is an abstract oracle `OsFs` over an
abstract filesystem state `σ`; mutating calls return the new state and a
success flag, and each Rust error-mapping site keeps its
`FileOperationError` wrapping (the appended io-error text is not modelled). -/

/-- `FileMetadata` (file_ops.rs:7-14). -/
structure FileMetadata where
  name : String
  size : Nat
  is_directory : Bool
  modified_time : Nat
  permissions : Nat
  deriving Repr, DecidableEq

/-- A path value as the Rust code receives it. -/
structure RPath where
  absolute : Bool
  comps : List String
  deriving Repr, DecidableEq

/-- The operating-system oracle: `canonicalize`, `metadata`, `read_dir` and
file reads are read-only queries; creation/removal/write calls return the
new filesystem state and a success flag.  `write` models
`File::create + write_all`, and `append` models
`OpenOptions::append(true).create(true).open + write_all`, each as one
call. -/
structure OsFs (σ : Type) where
  canonicalize : σ → List String → Option (List String)
  createDirAll : σ → List String → σ × Bool
  createFileOs : σ → List String → σ × Bool
  readFileOs : σ → List String → Option (List Nat)
  writeFileOs : σ → List String → List Nat → σ × Bool
  appendFileOs : σ → List String → List Nat → σ × Bool
  removeFileOs : σ → List String → σ × Bool
  metadataOs : σ → List String → Option FileMetadata
  readDirOs : σ → List String → Option (List FileMetadata)
  removeDirOs : σ → List String → σ × Bool

namespace DefaultFileOperations

/-- `path.strip_prefix("/").unwrap_or(path)` (file_ops.rs:104): an absolute
path loses its root component; a relative path is returned unchanged. -/
def strip_root (p : RPath) : RPath :=
  if p.absolute then ⟨false, p.comps⟩ else p

/-- `self.base_dir.join(path)` (file_ops.rs:106) at component granularity;
joining an absolute path replaces the base. -/
def joinPath (base : List String) (p : RPath) : List String :=
  if p.absolute then p.comps else base ++ p.comps

/-- `Path::parent`: drop the final component; `none` at the root. -/
def parentComps (comps : List String) : Option (List String) :=
  match comps with
  | [] => none
  | _ => some comps.dropLast

/-- `Path::file_name`: the final component, or `none` for the root or a
path ending in `..`. -/
def fileName (comps : List String) : Option String :=
  match comps.getLast? with
  | none => none
  | some c => if c = ".." then none else some c

/-- The canonical location computed by file_ops.rs:104-116: strip a leading
root, join onto `base_dir`, canonicalize; if that fails (target does not
exist), canonicalize the parent and append the file name. -/
def canonicalCandidate {σ : Type} (os : OsFs σ) (st : σ) (base : List String) (p : RPath) :
    Option (List String) :=
  let full := joinPath base (strip_root p)
  match os.canonicalize st full with
  | some c => some c
  | none =>
    match parentComps full with
    | none => none
    | some par =>
      match os.canonicalize st par with
      | none => none
      | some canonical_parent =>
        match fileName full with
        | none => none
        | some filename => some (canonical_parent ++ [filename])

/-- `DefaultFileOperations::resolve_path` (file_ops.rs:103-126): compute
the canonical location (error "Invalid path" when even the parent cannot
be canonicalized), then reject any result that does not start with
`base_dir`. -/
def resolve_path {σ : Type} (os : OsFs σ) (st : σ) (base : List String) (p : RPath) :
    Except FenrisError (List String) :=
  match canonicalCandidate os st base p with
  | none => .error (.FileOperationError "Invalid path")
  | some canonical =>
    if base.isPrefixOf canonical then .ok canonical
    else .error (.FileOperationError "Path outside base directory")

/-- `create_file` (file_ops.rs:135-153): resolve, create parent
directories, create the file. -/
def create_file {σ : Type} (os : OsFs σ) (base : List String) (st : σ) (p : RPath) :
    Except FenrisError Unit × σ :=
  match resolve_path os st base p with
  | .error e => (.error e, st)
  | .ok full_path =>
    let (st1, ok1) :=
      match parentComps full_path with
      | some parent => os.createDirAll st parent
      | none => (st, true)
    if ok1 then
      let (st2, ok2) := os.createFileOs st1 full_path
      if ok2 then (.ok (), st2)
      else (.error (.FileOperationError "Failed to create file"), st2)
    else (.error (.FileOperationError "Failed to create parent dirs"), st1)

/-- `read_file` (file_ops.rs:155-172): resolve, open and read to end
(read-only). -/
def read_file {σ : Type} (os : OsFs σ) (base : List String) (st : σ) (p : RPath) :
    Except FenrisError (List Nat) :=
  match resolve_path os st base p with
  | .error e => .error e
  | .ok full_path =>
    match os.readFileOs st full_path with
    | some contents => .ok contents
    | none => .error (.FileOperationError "Failed to open file")

/-- `write_file` (file_ops.rs:174-196): resolve, create parent
directories, create-or-truncate and write. -/
def write_file {σ : Type} (os : OsFs σ) (base : List String) (st : σ) (p : RPath)
    (data : List Nat) : Except FenrisError Unit × σ :=
  match resolve_path os st base p with
  | .error e => (.error e, st)
  | .ok full_path =>
    let (st1, ok1) :=
      match parentComps full_path with
      | some parent => os.createDirAll st parent
      | none => (st, true)
    if ok1 then
      let (st2, ok2) := os.writeFileOs st1 full_path data
      if ok2 then (.ok (), st2)
      else (.error (.FileOperationError "Failed to write file"), st2)
    else (.error (.FileOperationError "Failed to create parent dirs"), st1)

/-- `append_file` (file_ops.rs:198-219): resolve, open in
append-create mode and write. -/
def append_file {σ : Type} (os : OsFs σ) (base : List String) (st : σ) (p : RPath)
    (data : List Nat) : Except FenrisError Unit × σ :=
  match resolve_path os st base p with
  | .error e => (.error e, st)
  | .ok full_path =>
    let (st1, ok1) := os.appendFileOs st full_path data
    if ok1 then (.ok (), st1)
    else (.error (.FileOperationError "Failed to append to file"), st1)

/-- `delete_file` (file_ops.rs:221-233). -/
def delete_file {σ : Type} (os : OsFs σ) (base : List String) (st : σ) (p : RPath) :
    Except FenrisError Unit × σ :=
  match resolve_path os st base p with
  | .error e => (.error e, st)
  | .ok full_path =>
    let (st1, ok1) := os.removeFileOs st full_path
    if ok1 then (.ok (), st1)
    else (.error (.FileOperationError "Failed to delete file"), st1)

/-- `file_info` (file_ops.rs:235-241): resolve, then
`FileMetadata::from_path` (read-only). -/
def file_info {σ : Type} (os : OsFs σ) (base : List String) (st : σ) (p : RPath) :
    Except FenrisError FileMetadata :=
  match resolve_path os st base p with
  | .error e => .error e
  | .ok full_path =>
    match os.metadataOs st full_path with
    | some metadata => .ok metadata
    | none => .error (.FileOperationError "Failed to get metadata")

/-- `create_dir` (file_ops.rs:243-255): resolve, `create_dir_all`. -/
def create_dir {σ : Type} (os : OsFs σ) (base : List String) (st : σ) (p : RPath) :
    Except FenrisError Unit × σ :=
  match resolve_path os st base p with
  | .error e => (.error e, st)
  | .ok full_path =>
    let (st1, ok1) := os.createDirAll st full_path
    if ok1 then (.ok (), st1)
    else (.error (.FileOperationError "Failed to create directory"), st1)

/-- `list_dir` (file_ops.rs:257-284): resolve, then enumerate the
directory (read-only; the per-entry metadata enumeration, whose failures
are skipped with a warning, is folded into the oracle). -/
def list_dir {σ : Type} (os : OsFs σ) (base : List String) (st : σ) (p : RPath) :
    Except FenrisError (List FileMetadata) :=
  match resolve_path os st base p with
  | .error e => .error e
  | .ok full_path =>
    match os.readDirOs st full_path with
    | some entries => .ok entries
    | none => .error (.FileOperationError "Failed to read directory")

/-- `delete_dir` (file_ops.rs:286-298). -/
def delete_dir {σ : Type} (os : OsFs σ) (base : List String) (st : σ) (p : RPath) :
    Except FenrisError Unit × σ :=
  match resolve_path os st base p with
  | .error e => (.error e, st)
  | .ok full_path =>
    let (st1, ok1) := os.removeDirOs st full_path
    if ok1 then (.ok (), st1)
    else (.error (.FileOperationError "Failed to delete directory"), st1)

theorem resolve_path_outside {σ : Type} (os : OsFs σ) (st : σ) (base : List String)
    (p : RPath) (c : List String)
    (hc : canonicalCandidate os st base p = some c)
    (hout : ¬ base.isPrefixOf c) :
    resolve_path os st base p = .error (.FileOperationError "Path outside base directory") := by
  unfold resolve_path
  rw [hc]
  simp [hout]

theorem resolve_path_under_base {σ : Type} (os : OsFs σ) (st : σ) (base : List String)
    (p : RPath) (q : List String) (h : resolve_path os st base p = .ok q) :
    base.isPrefixOf q := by
  unfold resolve_path at h
  cases hc : canonicalCandidate os st base p with
  | none => rw [hc] at h; exact absurd h (by simp)
  | some c =>
    rw [hc] at h
    dsimp only at h
    by_cases hp : base.isPrefixOf c
    · rw [if_pos hp] at h
      cases h
      exact hp
    · rw [if_neg hp] at h
      exact absurd h (by simp)

end DefaultFileOperations

/-- Claim C1: for every public file operation of `DefaultFileOperations`
and every input path, if the path canonicalizes — after stripping a
leading root and joining with `base_dir` — to a location that does not
have `base_dir` as a prefix, the operation returns
`FileOperationError("Path outside base directory")` and leaves the
filesystem state untouched; and every path `resolve_path` accepts lies
under `base_dir`. -/
theorem sandbox_containment {σ : Type} (os : OsFs σ) (st : σ) (base : List String)
    (p : RPath) (c : List String) (data : List Nat)
    (hc : DefaultFileOperations.canonicalCandidate os st base p = some c)
    (hout : ¬ base.isPrefixOf c) :
    DefaultFileOperations.create_file os base st p =
      (.error (.FileOperationError "Path outside base directory"), st) ∧
    DefaultFileOperations.read_file os base st p =
      .error (.FileOperationError "Path outside base directory") ∧
    DefaultFileOperations.write_file os base st p data =
      (.error (.FileOperationError "Path outside base directory"), st) ∧
    DefaultFileOperations.append_file os base st p data =
      (.error (.FileOperationError "Path outside base directory"), st) ∧
    DefaultFileOperations.delete_file os base st p =
      (.error (.FileOperationError "Path outside base directory"), st) ∧
    DefaultFileOperations.file_info os base st p =
      .error (.FileOperationError "Path outside base directory") ∧
    DefaultFileOperations.create_dir os base st p =
      (.error (.FileOperationError "Path outside base directory"), st) ∧
    DefaultFileOperations.list_dir os base st p =
      .error (.FileOperationError "Path outside base directory") ∧
    DefaultFileOperations.delete_dir os base st p =
      (.error (.FileOperationError "Path outside base directory"), st) ∧
    ∀ (st' : σ) (p' : RPath) (q : List String),
      DefaultFileOperations.resolve_path os st' base p' = .ok q → base.isPrefixOf q := by
  have herr := DefaultFileOperations.resolve_path_outside os st base p c hc hout
  refine ⟨?_, ?_, ?_, ?_, ?_, ?_, ?_, ?_, ?_, ?_⟩
  · simp only [DefaultFileOperations.create_file, herr]
  · simp only [DefaultFileOperations.read_file, herr]
  · simp only [DefaultFileOperations.write_file, herr]
  · simp only [DefaultFileOperations.append_file, herr]
  · simp only [DefaultFileOperations.delete_file, herr]
  · simp only [DefaultFileOperations.file_info, herr]
  · simp only [DefaultFileOperations.create_dir, herr]
  · simp only [DefaultFileOperations.list_dir, herr]
  · simp only [DefaultFileOperations.delete_dir, herr]
  · exact fun st' p' q h => DefaultFileOperations.resolve_path_under_base os st' base p' q h

/-- An OS oracle whose canonicalisation resolves everything to the root —
a symlink escaping the sandbox — used by the C1 witness. -/
def escapeOs : OsFs Unit where
  canonicalize := fun _ _ => some []
  createDirAll := fun s _ => (s, true)
  createFileOs := fun s _ => (s, true)
  readFileOs := fun _ _ => some []
  writeFileOs := fun s _ _ => (s, true)
  appendFileOs := fun s _ _ => (s, true)
  removeFileOs := fun s _ => (s, true)
  metadataOs := fun _ _ => none
  readDirOs := fun _ _ => none
  removeDirOs := fun s _ => (s, true)

/-- Witness for C1: reading `/etc/passwd` under base directory `base`
through an escaping canonicalisation yields the sandbox error. -/
theorem sandbox_containment_witness :
    DefaultFileOperations.read_file escapeOs ["base"] () ⟨true, ["etc", "passwd"]⟩ =
      .error (.FileOperationError "Path outside base directory") :=
  (sandbox_containment escapeOs () ["base"] ⟨true, ["etc", "passwd"]⟩ [] []
    rfl (by decide)).2.1

/-! ## Wire message types (`proto/fenris.proto`, generated code not under
`src/`) and the request handler (`request_handler.rs`)

The handler manipulates `PathBuf` values whose raw string form reaches the
wire through `to_string_lossy`, so here paths are raw strings and
`Path::join` / `Path::parent` are given their raw-string semantics. -/

/-- Modelled from the spec: `RequestKind` wire numbering (§6) of the
protobuf-generated `RequestType`: Ping=0, ListDir=1, ChangeDir=2,
ReadFile=3, WriteFile=4, CreateFile=5, DeleteFile=6, CreateDir=7,
DeleteDir=8, InfoFile=9, AppendFile=10, UploadFile=11, Terminate=12. -/
inductive RequestType where
  | Ping
  | ListDir
  | ChangeDir
  | ReadFile
  | WriteFile
  | CreateFile
  | DeleteFile
  | CreateDir
  | DeleteDir
  | InfoFile
  | AppendFile
  | UploadFile
  | Terminate
  deriving Repr, DecidableEq

/-- The stable wire value of each `RequestType` (an `i32` on the wire). -/
def RequestType.toTag : RequestType → Int
  | .Ping => 0
  | .ListDir => 1
  | .ChangeDir => 2
  | .ReadFile => 3
  | .WriteFile => 4
  | .CreateFile => 5
  | .DeleteFile => 6
  | .CreateDir => 7
  | .DeleteDir => 8
  | .InfoFile => 9
  | .AppendFile => 10
  | .UploadFile => 11
  | .Terminate => 12

/-- Modelled from the spec: `RequestType::try_from` on a wire tag, as
generated by prost — every unknown value is an error, never a panic. -/
def RequestType.tryFrom (n : Int) : Option RequestType :=
  if n = 0 then some .Ping
  else if n = 1 then some .ListDir
  else if n = 2 then some .ChangeDir
  else if n = 3 then some .ReadFile
  else if n = 4 then some .WriteFile
  else if n = 5 then some .CreateFile
  else if n = 6 then some .DeleteFile
  else if n = 7 then some .CreateDir
  else if n = 8 then some .DeleteDir
  else if n = 9 then some .InfoFile
  else if n = 10 then some .AppendFile
  else if n = 11 then some .UploadFile
  else if n = 12 then some .Terminate
  else none

/-- Modelled from the spec: `ResponseKind` numbering (§6, sequential):
Pong, Success, ChangedDir, FileContent, FileInfo, DirListing, Error,
Terminated. -/
inductive ResponseType where
  | Pong
  | Success
  | ChangedDir
  | FileContent
  | FileInfo
  | DirListing
  | Error
  | Terminated
  deriving Repr, DecidableEq

def ResponseType.toTag : ResponseType → Int
  | .Pong => 0
  | .Success => 1
  | .ChangedDir => 2
  | .FileContent => 3
  | .FileInfo => 4
  | .DirListing => 5
  | .Error => 6
  | .Terminated => 7

/-- Modelled from the spec: the wire `Request` record. -/
structure Request where
  command : Int
  filename : String
  ip_addr : Nat
  data : List Nat
  deriving Repr, DecidableEq

/-- The `details` oneof of a `Response`: `FileInfo` or
`DirectoryListing` (entries in enumeration order). -/
inductive Details where
  | FileInfo (info : FileMetadata)
  | DirectoryListing (entries : List FileMetadata)
  deriving Repr, DecidableEq

/-- Modelled from the spec: the wire `Response` record. -/
structure Response where
  type : Int
  success : Bool
  error_message : String
  data : List Nat
  details : Option Details
  deriving Repr, DecidableEq

/-- `String::as_bytes` / `into_bytes`: the UTF-8 bytes of a string. -/
def strBytes (s : String) : List Nat :=
  s.toUTF8.toList.map (fun b => b.toNat)

/-- `str::starts_with` on the string model: character-level prefix test
(kernel-computable, unlike `String.startsWith`). -/
def strStartsWith (s pre : String) : Bool :=
  pre.data.isPrefixOf s.data

/-- `str::ends_with`: character-level suffix test. -/
def strEndsWith (s suf : String) : Bool :=
  suf.data.isSuffixOf s.data

/-- `PathBuf::join` on raw strings: an absolute argument replaces the
path; otherwise `push` inserts a separator unless the base already ends
in one (or is empty). -/
def pathJoin (base name : String) : String :=
  if strStartsWith name "/" then name
  else if base = "" then name
  else if strEndsWith base "/" then base ++ name
  else base ++ "/" ++ name

/-- One step of popping the final path component from a reversed
character list: skip separators, then the final chunk; a `"."` chunk is
not a component (`Path::components` skips interior `.`) so popping
continues past it. -/
def popComponent (r : List Char) : Option (List Char) :=
  let r1 := r.dropWhile (· = '/')
  if hc : r1.takeWhile (· ≠ '/') = [] then none
  else
    let chunk := (r1.takeWhile (· ≠ '/')).reverse
    let rest := r1.dropWhile (· ≠ '/')
    if chunk = ['.'] then popComponent rest else some rest
termination_by r.length
decreasing_by
  have h1 := congrArg List.length
    (List.takeWhile_append_dropWhile (fun c => decide (c = '/')) r)
  have h2 := congrArg List.length
    (List.takeWhile_append_dropWhile (fun c => decide (c ≠ '/')) (r.dropWhile (· = '/')))
  rw [List.length_append] at h1 h2
  have h3 : ((r.dropWhile (· = '/')).takeWhile (· ≠ '/')).length ≠ 0 := by
    intro hz
    exact hc (List.length_eq_zero.mp hz)
  omega

/-- `Path::parent` on a raw absolute path string: drop the final
component (skipping interior `.` and collapsed separators exactly as
`Path::components` does), keeping the remaining raw text; `none` at the
root.  Faithful for the absolute, non-`//`-prefixed strings
`current_dir` ranges over. -/
def pathParent (p : String) : Option String :=
  match popComponent p.data.reverse with
  | none => none
  | some rest =>
    let stripped := rest.dropWhile (· = '/')
    if stripped = [] then
      if rest = [] then some "" else some "/"
    else some (String.mk stripped.reverse)

/-- The `FileOperations` trait object held by the request handler
(`file_ops`), abstracted as result oracles; the handler only observes
results, never filesystem state. -/
structure FileOperations where
  create_file : String → Except FenrisError Unit
  read_file : String → Except FenrisError (List Nat)
  write_file : String → List Nat → Except FenrisError Unit
  append_file : String → List Nat → Except FenrisError Unit
  delete_file : String → Except FenrisError Unit
  file_info : String → Except FenrisError FileMetadata
  create_dir : String → Except FenrisError Unit
  list_dir : String → Except FenrisError (List FileMetadata)
  delete_dir : String → Except FenrisError Unit
  is_dir : String → Bool

namespace RequestHandler

/-- `RequestHandler::resolve_path` (request_handler.rs:20-28). -/
def resolve_path (path : String) (current_dir : String) : String :=
  if path = "" ∨ path = "." then current_dir
  else if strStartsWith path "/" then path
  else pathJoin current_dir path

/-- `handle_ping` (request_handler.rs:100-108). -/
def handle_ping : Except FenrisError Response :=
  .ok { type := ResponseType.Pong.toTag, success := true, error_message := "",
        data := [], details := none }

/-- `handle_create_file` (request_handler.rs:110-121). -/
def handle_create_file (file_ops : FileOperations) (filename current_dir : String) :
    Except FenrisError Response :=
  let path := resolve_path filename current_dir
  match file_ops.create_file path with
  | .error e => .error e
  | .ok _ =>
    .ok { type := ResponseType.Success.toTag, success := true, error_message := "",
          data := strBytes ("File created: " ++ path), details := none }

/-- `handle_read_file` (request_handler.rs:123-134). -/
def handle_read_file (file_ops : FileOperations) (filename current_dir : String) :
    Except FenrisError Response :=
  let path := resolve_path filename current_dir
  match file_ops.read_file path with
  | .error e => .error e
  | .ok data =>
    .ok { type := ResponseType.FileContent.toTag, success := true, error_message := "",
          data := data, details := none }

/-- `handle_write_file` (request_handler.rs:136-152). -/
def handle_write_file (file_ops : FileOperations) (filename : String) (data : List Nat)
    (current_dir : String) : Except FenrisError Response :=
  let path := resolve_path filename current_dir
  match file_ops.write_file path data with
  | .error e => .error e
  | .ok _ =>
    .ok { type := ResponseType.Success.toTag, success := true, error_message := "",
          data := strBytes ("File written: " ++ toString data.length ++ " bytes"),
          details := none }

/-- `handle_delete_file` (request_handler.rs:154-165). -/
def handle_delete_file (file_ops : FileOperations) (filename current_dir : String) :
    Except FenrisError Response :=
  let path := resolve_path filename current_dir
  match file_ops.delete_file path with
  | .error e => .error e
  | .ok _ =>
    .ok { type := ResponseType.Success.toTag, success := true, error_message := "",
          data := strBytes ("File deleted: " ++ path), details := none }

/-- `handle_append_file` (request_handler.rs:167-188). -/
def handle_append_file (file_ops : FileOperations) (filename : String) (data : List Nat)
    (current_dir : String) : Except FenrisError Response :=
  let path := resolve_path filename current_dir
  match file_ops.append_file path data with
  | .error e => .error e
  | .ok _ =>
    .ok { type := ResponseType.Success.toTag, success := true, error_message := "",
          data := strBytes ("Appended " ++ toString data.length ++ " bytes to " ++ path),
          details := none }

/-- `handle_upload` (request_handler.rs:190-211): a write with a
different status string. -/
def handle_upload (file_ops : FileOperations) (filename : String) (data : List Nat)
    (current_dir : String) : Except FenrisError Response :=
  let path := resolve_path filename current_dir
  match file_ops.write_file path data with
  | .error e => .error e
  | .ok _ =>
    .ok { type := ResponseType.Success.toTag, success := true, error_message := "",
          data := strBytes ("Uploaded " ++ toString data.length ++ " bytes to " ++ path),
          details := none }

/-- `handle_file_info` (request_handler.rs:213-232); the proto `FileInfo`
carries the metadata fields unchanged. -/
def handle_file_info (file_ops : FileOperations) (filename current_dir : String) :
    Except FenrisError Response :=
  let path := resolve_path filename current_dir
  match file_ops.file_info path with
  | .error e => .error e
  | .ok metadata =>
    .ok { type := ResponseType.FileInfo.toTag, success := true, error_message := "",
          data := [], details := some (.FileInfo metadata) }

/-- `handle_create_dir` (request_handler.rs:234-245). -/
def handle_create_dir (file_ops : FileOperations) (dirname current_dir : String) :
    Except FenrisError Response :=
  let path := resolve_path dirname current_dir
  match file_ops.create_dir path with
  | .error e => .error e
  | .ok _ =>
    .ok { type := ResponseType.Success.toTag, success := true, error_message := "",
          data := strBytes ("Directory created: " ++ path), details := none }

/-- `handle_list_dir` (request_handler.rs:247-274); entries map to proto
`FileInfo` records field by field. -/
def handle_list_dir (file_ops : FileOperations) (dirname current_dir : String) :
    Except FenrisError Response :=
  let path := resolve_path dirname current_dir
  match file_ops.list_dir path with
  | .error e => .error e
  | .ok entries =>
    .ok { type := ResponseType.DirListing.toTag, success := true, error_message := "",
          data := [], details := some (.DirectoryListing entries) }

/-- `handle_delete_dir` (request_handler.rs:276-287). -/
def handle_delete_dir (file_ops : FileOperations) (dirname current_dir : String) :
    Except FenrisError Response :=
  let path := resolve_path dirname current_dir
  match file_ops.delete_dir path with
  | .error e => .error e
  | .ok _ =>
    .ok { type := ResponseType.Success.toTag, success := true, error_message := "",
          data := strBytes ("Directory deleted: " ++ path), details := none }

/-- The target directory computed by `handle_change_dir`
(request_handler.rs:294-307). -/
def changeDirTarget (dirname current_dir : String) : String :=
  if dirname = "" ∨ dirname = "~" then "/"
  else if dirname = "." then current_dir
  else if dirname = ".." then (pathParent current_dir).getD "/"
  else if strStartsWith dirname "/" then dirname
  else pathJoin current_dir dirname

/-- `handle_change_dir` (request_handler.rs:289-325): check `is_dir` on
the target, then set `current_dir` (returned as the second component) and
echo the new directory string; otherwise fail without touching
`current_dir`. -/
def handle_change_dir (file_ops : FileOperations) (dirname current_dir : String) :
    Except FenrisError (Response × String) :=
  let target_path := changeDirTarget dirname current_dir
  if file_ops.is_dir target_path then
    .ok ({ type := ResponseType.ChangedDir.toTag, success := true, error_message := "",
           data := strBytes target_path, details := none }, target_path)
  else
    .error (.FileOperationError "Not a directory")

/-- Pairs a handler result with the unchanged `current_dir`; in Rust the
`&mut current_dir` is simply not written by these handlers. -/
def withDir (current_dir : String) :
    Except FenrisError Response → Except FenrisError (Response × String)
  | .error e => .error e
  | .ok response => .ok (response, current_dir)

/-- `handle_request` (request_handler.rs:60-98). -/
def handle_request (file_ops : FileOperations) (request_type : RequestType)
    (request : Request) (current_dir : String) :
    Except FenrisError (Response × String) :=
  match request_type with
  | .Ping => withDir current_dir handle_ping
  | .CreateFile => withDir current_dir
      (handle_create_file file_ops request.filename current_dir)
  | .ReadFile => withDir current_dir
      (handle_read_file file_ops request.filename current_dir)
  | .WriteFile => withDir current_dir
      (handle_write_file file_ops request.filename request.data current_dir)
  | .DeleteFile => withDir current_dir
      (handle_delete_file file_ops request.filename current_dir)
  | .AppendFile => withDir current_dir
      (handle_append_file file_ops request.filename request.data current_dir)
  | .UploadFile => withDir current_dir
      (handle_upload file_ops request.filename request.data current_dir)
  | .InfoFile => withDir current_dir
      (handle_file_info file_ops request.filename current_dir)
  | .CreateDir => withDir current_dir
      (handle_create_dir file_ops request.filename current_dir)
  | .ListDir => withDir current_dir
      (handle_list_dir file_ops request.filename current_dir)
  | .DeleteDir => withDir current_dir
      (handle_delete_dir file_ops request.filename current_dir)
  | .ChangeDir => handle_change_dir file_ops request.filename current_dir
  | .Terminate => .error (.InvalidRequest "Terminate request should be handled separately")

/-- `error_response` (request_handler.rs:327-335). -/
def error_response (message : String) : Response :=
  { type := ResponseType.Error.toTag, success := false, error_message := message,
    data := [], details := none }

/-- `process_request` (request_handler.rs:30-58): decode the command tag
(unknown tags become the "Invalid request type" error response), run the
handler, and convert any error into an error response via its `Display`
text.  The returned pair is (response, current_dir after the request). -/
def process_request (file_ops : FileOperations) (request : Request) (current_dir : String) :
    Response × String :=
  match RequestType.tryFrom request.command with
  | none => (error_response "Invalid request type", current_dir)
  | some request_type =>
    match handle_request file_ops request_type request current_dir with
    | .ok (response, new_dir) => (response, new_dir)
    | .error e => (error_response e.toDisplay, current_dir)

end RequestHandler

theorem RequestType.tryFrom_toTag (n : Int) (rt : RequestType)
    (h : RequestType.tryFrom n = some rt) : n = rt.toTag := by
  unfold RequestType.tryFrom at h
  by_cases h0 : n = 0
  · rw [if_pos h0] at h; injection h with h; subst h; exact h0
  rw [if_neg h0] at h
  by_cases h1 : n = 1
  · rw [if_pos h1] at h; injection h with h; subst h; exact h1
  rw [if_neg h1] at h
  by_cases h2 : n = 2
  · rw [if_pos h2] at h; injection h with h; subst h; exact h2
  rw [if_neg h2] at h
  by_cases h3 : n = 3
  · rw [if_pos h3] at h; injection h with h; subst h; exact h3
  rw [if_neg h3] at h
  by_cases h4 : n = 4
  · rw [if_pos h4] at h; injection h with h; subst h; exact h4
  rw [if_neg h4] at h
  by_cases h5 : n = 5
  · rw [if_pos h5] at h; injection h with h; subst h; exact h5
  rw [if_neg h5] at h
  by_cases h6 : n = 6
  · rw [if_pos h6] at h; injection h with h; subst h; exact h6
  rw [if_neg h6] at h
  by_cases h7 : n = 7
  · rw [if_pos h7] at h; injection h with h; subst h; exact h7
  rw [if_neg h7] at h
  by_cases h8 : n = 8
  · rw [if_pos h8] at h; injection h with h; subst h; exact h8
  rw [if_neg h8] at h
  by_cases h9 : n = 9
  · rw [if_pos h9] at h; injection h with h; subst h; exact h9
  rw [if_neg h9] at h
  by_cases h10 : n = 10
  · rw [if_pos h10] at h; injection h with h; subst h; exact h10
  rw [if_neg h10] at h
  by_cases h11 : n = 11
  · rw [if_pos h11] at h; injection h with h; subst h; exact h11
  rw [if_neg h11] at h
  by_cases h12 : n = 12
  · rw [if_pos h12] at h; injection h with h; subst h; exact h12
  rw [if_neg h12] at h
  exact absurd h (by simp)

theorem RequestHandler.withDir_ok (current_dir : String) (r : Except FenrisError Response)
    (resp : Response) (nd : String) (h : RequestHandler.withDir current_dir r = .ok (resp, nd)) :
    r = .ok resp ∧ nd = current_dir := by
  cases r with
  | error e => simp [RequestHandler.withDir] at h
  | ok response =>
    simp only [RequestHandler.withDir, Except.ok.injEq, Prod.mk.injEq] at h
    exact ⟨by rw [h.1], h.2.symm⟩

/-- Every `Ok` response produced by `handle_request` has `success = true`:
failures travel as `Err` and only become responses in `process_request`. -/
theorem RequestHandler.handle_request_success (file_ops : FileOperations)
    (rt : RequestType) (request : Request) (cd : String) (resp : Response) (nd : String)
    (hreq : RequestHandler.handle_request file_ops rt request cd = .ok (resp, nd)) :
    resp.success = true := by
  unfold RequestHandler.handle_request at hreq
  cases rt with
  | Ping =>
    obtain ⟨hr, -⟩ := RequestHandler.withDir_ok cd _ resp nd hreq
    rw [← Except.ok.inj hr]
  | CreateFile =>
    obtain ⟨hr, -⟩ := RequestHandler.withDir_ok cd _ resp nd hreq
    unfold RequestHandler.handle_create_file at hr
    dsimp only at hr
    split at hr
    · simp at hr
    · rw [← Except.ok.inj hr]
  | ReadFile =>
    obtain ⟨hr, -⟩ := RequestHandler.withDir_ok cd _ resp nd hreq
    unfold RequestHandler.handle_read_file at hr
    dsimp only at hr
    split at hr
    · simp at hr
    · rw [← Except.ok.inj hr]
  | WriteFile =>
    obtain ⟨hr, -⟩ := RequestHandler.withDir_ok cd _ resp nd hreq
    unfold RequestHandler.handle_write_file at hr
    dsimp only at hr
    split at hr
    · simp at hr
    · rw [← Except.ok.inj hr]
  | DeleteFile =>
    obtain ⟨hr, -⟩ := RequestHandler.withDir_ok cd _ resp nd hreq
    unfold RequestHandler.handle_delete_file at hr
    dsimp only at hr
    split at hr
    · simp at hr
    · rw [← Except.ok.inj hr]
  | AppendFile =>
    obtain ⟨hr, -⟩ := RequestHandler.withDir_ok cd _ resp nd hreq
    unfold RequestHandler.handle_append_file at hr
    dsimp only at hr
    split at hr
    · simp at hr
    · rw [← Except.ok.inj hr]
  | UploadFile =>
    obtain ⟨hr, -⟩ := RequestHandler.withDir_ok cd _ resp nd hreq
    unfold RequestHandler.handle_upload at hr
    dsimp only at hr
    split at hr
    · simp at hr
    · rw [← Except.ok.inj hr]
  | InfoFile =>
    obtain ⟨hr, -⟩ := RequestHandler.withDir_ok cd _ resp nd hreq
    unfold RequestHandler.handle_file_info at hr
    dsimp only at hr
    split at hr
    · simp at hr
    · rw [← Except.ok.inj hr]
  | CreateDir =>
    obtain ⟨hr, -⟩ := RequestHandler.withDir_ok cd _ resp nd hreq
    unfold RequestHandler.handle_create_dir at hr
    dsimp only at hr
    split at hr
    · simp at hr
    · rw [← Except.ok.inj hr]
  | ListDir =>
    obtain ⟨hr, -⟩ := RequestHandler.withDir_ok cd _ resp nd hreq
    unfold RequestHandler.handle_list_dir at hr
    dsimp only at hr
    split at hr
    · simp at hr
    · rw [← Except.ok.inj hr]
  | DeleteDir =>
    obtain ⟨hr, -⟩ := RequestHandler.withDir_ok cd _ resp nd hreq
    unfold RequestHandler.handle_delete_dir at hr
    dsimp only at hr
    split at hr
    · simp at hr
    · rw [← Except.ok.inj hr]
  | ChangeDir =>
    unfold RequestHandler.handle_change_dir at hreq
    dsimp only at hreq
    split at hreq
    · injection hreq with h
      injection h with h1 h2
      rw [← h1]
    · simp at hreq
  | Terminate => exact Except.noConfusion hreq

/-- `handle_request` leaves `current_dir` unchanged except on
`ChangeDir`. -/
theorem RequestHandler.handle_request_dir (file_ops : FileOperations)
    (rt : RequestType) (request : Request) (cd : String) (resp : Response) (nd : String)
    (hreq : RequestHandler.handle_request file_ops rt request cd = .ok (resp, nd))
    (hrt : rt ≠ RequestType.ChangeDir) : nd = cd := by
  unfold RequestHandler.handle_request at hreq
  cases rt with
  | ChangeDir => exact absurd rfl hrt
  | Terminate => exact Except.noConfusion hreq
  | Ping => exact (RequestHandler.withDir_ok cd _ resp nd hreq).2
  | CreateFile => exact (RequestHandler.withDir_ok cd _ resp nd hreq).2
  | ReadFile => exact (RequestHandler.withDir_ok cd _ resp nd hreq).2
  | WriteFile => exact (RequestHandler.withDir_ok cd _ resp nd hreq).2
  | DeleteFile => exact (RequestHandler.withDir_ok cd _ resp nd hreq).2
  | AppendFile => exact (RequestHandler.withDir_ok cd _ resp nd hreq).2
  | UploadFile => exact (RequestHandler.withDir_ok cd _ resp nd hreq).2
  | InfoFile => exact (RequestHandler.withDir_ok cd _ resp nd hreq).2
  | CreateDir => exact (RequestHandler.withDir_ok cd _ resp nd hreq).2
  | ListDir => exact (RequestHandler.withDir_ok cd _ resp nd hreq).2
  | DeleteDir => exact (RequestHandler.withDir_ok cd _ resp nd hreq).2

/-- A request is answered either with a success response or with an error
response carrying a non-empty message. -/
theorem RequestHandler.process_request_shape (file_ops : FileOperations)
    (request : Request) (cd : String) :
    (RequestHandler.process_request file_ops request cd).1.success = true ∨
      ∃ msg, msg ≠ "" ∧
        (RequestHandler.process_request file_ops request cd).1 =
          RequestHandler.error_response msg := by
  unfold RequestHandler.process_request
  cases htf : RequestType.tryFrom request.command with
  | none =>
    right
    exact ⟨"Invalid request type", by decide, rfl⟩
  | some rt =>
    dsimp only
    cases hreq : RequestHandler.handle_request file_ops rt request cd with
    | error e =>
      right
      exact ⟨e.toDisplay, FenrisError.toDisplay_ne_empty e, rfl⟩
    | ok pr =>
      obtain ⟨resp, nd⟩ := pr
      left
      exact RequestHandler.handle_request_success file_ops rt request cd resp nd hreq

/-- `process_request` either leaves `current_dir` unchanged or the request
was a successful `ChangeDir`. -/
theorem RequestHandler.process_request_dir_cases (file_ops : FileOperations)
    (request : Request) (cd : String) :
    (RequestHandler.process_request file_ops request cd).2 = cd ∨
      (request.command = RequestType.ChangeDir.toTag ∧
        (RequestHandler.process_request file_ops request cd).1.success = true) := by
  unfold RequestHandler.process_request
  cases htf : RequestType.tryFrom request.command with
  | none => left; rfl
  | some rt =>
    dsimp only
    cases hreq : RequestHandler.handle_request file_ops rt request cd with
    | error e => left; rfl
    | ok pr =>
      obtain ⟨resp, nd⟩ := pr
      by_cases hrt : rt = RequestType.ChangeDir
      · right
        subst hrt
        refine ⟨RequestType.tryFrom_toTag _ _ htf, ?_⟩
        exact RequestHandler.handle_request_success file_ops _ request cd resp nd hreq
      · left
        exact RequestHandler.handle_request_dir file_ops rt request cd resp nd hreq hrt

/-- A file-operations oracle whose calls all succeed trivially; used by
witnesses. -/
def trivialFileOps : FileOperations where
  create_file := fun _ => .ok ()
  read_file := fun _ => .ok []
  write_file := fun _ _ => .ok ()
  append_file := fun _ _ => .ok ()
  delete_file := fun _ => .ok ()
  file_info := fun _ => .error (.FileOperationError "NotFound")
  create_dir := fun _ => .ok ()
  list_dir := fun _ => .ok []
  delete_dir := fun _ => .ok ()
  is_dir := fun _ => false

/-- A file-operations oracle where exactly `/data` is a directory; used by
the C4 witness. -/
def cdFileOps : FileOperations :=
  { trivialFileOps with is_dir := fun s => s == "/data" }

/-- Claim C4: for a `ChangeDir` request against an absolute
`current_dir`, the target is `/` for an empty or `~` name, `current_dir`
for `.`, the parent (or `/` at the root) for `..`, the name itself when
absolute, and `current_dir` joined with the name otherwise; if the target
satisfies `is_dir`, `current_dir` becomes the target and the response is
`ChangedDir`/`success` with the new absolute directory string as data —
otherwise the request yields the error response whose message
`"File operation failed: Not a directory"` contains `"Not a directory"`,
and `current_dir` is unchanged. -/
theorem change_dir_semantics (file_ops : FileOperations) (request : Request) (cd : String)
    (hcmd : request.command = RequestType.ChangeDir.toTag)
    (habs : strStartsWith cd "/" = true) :
    ((request.filename = "" ∨ request.filename = "~") →
      RequestHandler.changeDirTarget request.filename cd = "/") ∧
    (request.filename = "." → RequestHandler.changeDirTarget request.filename cd = cd) ∧
    (request.filename = ".." →
      RequestHandler.changeDirTarget request.filename cd = (pathParent cd).getD "/") ∧
    (request.filename ≠ "" → request.filename ≠ "~" → request.filename ≠ "." →
      request.filename ≠ ".." → strStartsWith request.filename "/" = true →
      RequestHandler.changeDirTarget request.filename cd = request.filename) ∧
    (request.filename ≠ "" → request.filename ≠ "~" → request.filename ≠ "." →
      request.filename ≠ ".." → strStartsWith request.filename "/" = false →
      RequestHandler.changeDirTarget request.filename cd = pathJoin cd request.filename) ∧
    (file_ops.is_dir (RequestHandler.changeDirTarget request.filename cd) = true →
      RequestHandler.process_request file_ops request cd =
        ({ type := ResponseType.ChangedDir.toTag, success := true, error_message := "",
           data := strBytes (RequestHandler.changeDirTarget request.filename cd),
           details := none },
         RequestHandler.changeDirTarget request.filename cd)) ∧
    (file_ops.is_dir (RequestHandler.changeDirTarget request.filename cd) = false →
      RequestHandler.process_request file_ops request cd =
        (RequestHandler.error_response "File operation failed: Not a directory", cd)) := by
  have htf : RequestType.tryFrom request.command = some RequestType.ChangeDir := by
    rw [hcmd]
    decide
  refine ⟨?_, ?_, ?_, ?_, ?_, ?_, ?_⟩
  · rintro (h | h) <;> simp [RequestHandler.changeDirTarget, h]
  · intro h
    simp [RequestHandler.changeDirTarget, h]
  · intro h
    simp [RequestHandler.changeDirTarget, h]
  · intro h1 h2 h3 h4 h5
    simp [RequestHandler.changeDirTarget, h1, h2, h3, h4, h5]
  · intro h1 h2 h3 h4 h5
    simp [RequestHandler.changeDirTarget, h1, h2, h3, h4, h5]
  · intro hdir
    have hcd : RequestHandler.handle_change_dir file_ops request.filename cd =
        .ok ({ type := ResponseType.ChangedDir.toTag, success := true, error_message := "",
               data := strBytes (RequestHandler.changeDirTarget request.filename cd),
               details := none },
             RequestHandler.changeDirTarget request.filename cd) := by
      unfold RequestHandler.handle_change_dir
      simp [hdir]
    unfold RequestHandler.process_request
    rw [htf]
    dsimp only
    unfold RequestHandler.handle_request
    rw [hcd]
  · intro hdir
    have hcd : RequestHandler.handle_change_dir file_ops request.filename cd =
        .error (.FileOperationError "Not a directory") := by
      unfold RequestHandler.handle_change_dir
      simp [hdir]
    unfold RequestHandler.process_request
    rw [htf]
    dsimp only
    unfold RequestHandler.handle_request
    rw [hcd]
    simp [FenrisError.toDisplay]

/-- Witness for C4: `cd data` starting from `/`, where `/data` is a
directory, moves to `/data` and echoes it. -/
theorem change_dir_semantics_witness :
    RequestHandler.process_request cdFileOps
        { command := 2, filename := "data", ip_addr := 0, data := [] } "/" =
      ({ type := ResponseType.ChangedDir.toTag, success := true, error_message := "",
         data := strBytes (RequestHandler.changeDirTarget "data" "/"), details := none },
       RequestHandler.changeDirTarget "data" "/") :=
  (change_dir_semantics cdFileOps
      { command := 2, filename := "data", ip_addr := 0, data := [] } "/"
      (by decide) (by decide)).2.2.2.2.2.1 (by decide)

/-- Claim C5: requests whose command is not `ChangeDir` — unknown tags
and failing operations included — leave `current_dir` unchanged;
`current_dir` changes only through a `ChangeDir` request that
succeeded. -/
theorem current_dir_frame (file_ops : FileOperations) (request : Request) (cd : String) :
    (request.command ≠ RequestType.ChangeDir.toTag →
      (RequestHandler.process_request file_ops request cd).2 = cd) ∧
    ((RequestHandler.process_request file_ops request cd).2 ≠ cd →
      request.command = RequestType.ChangeDir.toTag ∧
      (RequestHandler.process_request file_ops request cd).1.success = true) := by
  have h := RequestHandler.process_request_dir_cases file_ops request cd
  constructor
  · intro hcmd
    rcases h with h | ⟨h1, -⟩
    · exact h
    · exact absurd h1 hcmd
  · intro hne
    rcases h with h | h
    · exact absurd h hne
    · exact h

/-- Witness for C5: a Ping request leaves `current_dir` at `/`. -/
theorem current_dir_frame_witness :
    (RequestHandler.process_request trivialFileOps
      { command := 0, filename := "", ip_addr := 0, data := [] } "/").2 = "/" :=
  (current_dir_frame trivialFileOps
    { command := 0, filename := "", ip_addr := 0, data := [] } "/").1 (by decide)

/-- Claim C6: every response of `process_request` with `success = false`
has a non-empty `error_message`, empty `data` and no `details` — it is
exactly the `Error` response built by `error_response`. -/
theorem error_response_shape (file_ops : FileOperations) (request : Request) (cd : String)
    (h : (RequestHandler.process_request file_ops request cd).1.success = false) :
    (RequestHandler.process_request file_ops request cd).1.error_message ≠ "" ∧
    (RequestHandler.process_request file_ops request cd).1.data = [] ∧
    (RequestHandler.process_request file_ops request cd).1.details = none ∧
    (RequestHandler.process_request file_ops request cd).1 =
      RequestHandler.error_response
        ((RequestHandler.process_request file_ops request cd).1.error_message) := by
  rcases RequestHandler.process_request_shape file_ops request cd with hs | ⟨msg, hmsg, heq⟩
  · rw [hs] at h
    exact absurd h (by simp)
  · rw [heq]
    exact ⟨hmsg, rfl, rfl, rfl⟩

/-- Witness for C6 at an unknown command tag. -/
theorem error_response_shape_witness :
    (RequestHandler.process_request trivialFileOps
        { command := 13, filename := "", ip_addr := 0, data := [] } "/").1.data = [] :=
  (error_response_shape trivialFileOps
    { command := 13, filename := "", ip_addr := 0, data := [] } "/" (by decide)).2.1

/-- Claim C7: every request whose command integer is not a valid
`RequestType` tag is answered — total-function semantics, so no panic —
with the `Error` response `success = false`, message exactly
"Invalid request type". -/
theorem invalid_request_type_response (file_ops : FileOperations) (request : Request)
    (cd : String) (h : RequestType.tryFrom request.command = none) :
    RequestHandler.process_request file_ops request cd =
      (RequestHandler.error_response "Invalid request type", cd) ∧
    (RequestHandler.error_response "Invalid request type").success = false ∧
    (RequestHandler.error_response "Invalid request type").error_message =
      "Invalid request type" ∧
    (RequestHandler.error_response "Invalid request type").type = ResponseType.Error.toTag := by
  refine ⟨?_, rfl, rfl, rfl⟩
  unfold RequestHandler.process_request
  rw [h]

/-- Witness for C7 at command tag 13. -/
theorem invalid_request_type_response_witness :
    RequestHandler.process_request trivialFileOps
        { command := 13, filename := "", ip_addr := 0, data := [] } "/" =
      (RequestHandler.error_response "Invalid request type", "/") :=
  (invalid_request_type_response trivialFileOps
    { command := 13, filename := "", ip_addr := 0, data := [] } "/" (by decide)).1

end Fenris
